import Mathlib

/-!
Shallow embedding of `chem_route_extractor.py` (ChemRouteExtractor), a
batch pipeline that turns chemistry-literature PDFs into synthesis-route
reports.  Pure computations (sorting, truncation, record normalization,
path filtering) are translated directly; interactions with external
collaborators (pdfplumber, the `re` module, OpenChemIE, RDKit,
python-docx, the filesystem) are modelled as explicit oracle values and
functions threaded into the embedded code, with collaborator failures
represented as `Except` values.  Exceptions are modelled by `Except`:
a Python function that catches internally is embedded as a total
function; a function that can let an exception escape returns
`Except String _`.
-/

namespace ChemRouteExtractor

/-! ### Python string primitives

Python strings compare lexicographically by code point; `str.isdigit` /
`str.isnumeric` are modelled for ASCII content (the identifier patterns
in the source only ever produce ASCII matches); slicing `s[:n]` is by
code point, which matches `List Char` operations on `String.data`.
Core `String`'s order is avoided because its `ltb` does not reduce in
the kernel; `charListLt` below is the same code-point order.  -/

def charListLt : List Char → List Char → Bool
  | [], [] => false
  | [], _ :: _ => true
  | _ :: _, [] => false
  | a :: as, b :: bs =>
    if a.toNat < b.toNat then true
    else if b.toNat < a.toNat then false
    else charListLt as bs

/-- Python `a < b` on strings: lexicographic by code point. -/
def pyStrLt (a b : String) : Bool := charListLt a.data b.data

/-- Python `a <= b` on strings. -/
def pyStrLe (a b : String) : Bool := !pyStrLt b a

/-- Python `str.isdigit` (ASCII-faithful). -/
def pyIsDigit (s : String) : Bool := !s.isEmpty && s.data.all (·.isDigit)

/-- Python `str.isnumeric` (ASCII-faithful; coincides with `isdigit` on
the ASCII identifiers this program manipulates). -/
def pyIsNumeric (s : String) : Bool := !s.isEmpty && s.data.all (·.isDigit)

/-- Python `s[:n]` (slice of the first `n` code points). -/
def pyTake (s : String) (n : Nat) : String := ⟨s.data.take n⟩

/-- Python `str.strip()` (strip whitespace from both ends;
`Char.isWhitespace` covers the space/tab/CR/LF characters occurring in
this pipeline's text). -/
def pyStrip (s : String) : String :=
  ⟨((s.data.dropWhile Char.isWhitespace).reverse.dropWhile Char.isWhitespace).reverse⟩

/-- Split a character list at every occurrence of `sep`, keeping empty
segments (the semantics of Python `str.split(sep)` with a one-character
separator). -/
def splitOnChar (sep : Char) : List Char → List (List Char)
  | [] => [[]]
  | c :: rest =>
    if c = sep then [] :: splitOnChar sep rest
    else
      match splitOnChar sep rest with
      | [] => [[c]]
      | h :: t => (c :: h) :: t

/-- Python `s.split(sep)` for a one-character separator. -/
def pySplitOnChar (sep : Char) (s : String) : List String :=
  (splitOnChar sep s.data).map (fun l => ⟨l⟩)

/-- Python `str.lower` (ASCII-faithful: `Char.toLower` lowers `A`-`Z`,
which covers the `.PDF`-style suffixes this program compares). -/
def pyToLower (s : String) : String := ⟨s.data.map Char.toLower⟩

/-- Python `str.endswith` / the trailing-`*.ext` part of a glob match. -/
def pyEndsWith (s suffix : String) : Bool := suffix.data.isSuffixOf s.data

/-- Python `needle in hay` (contiguous substring test). -/
def subOccurs (n : List Char) : List Char → Bool
  | [] => n.isEmpty
  | c :: t => n.isPrefixOf (c :: t) || subOccurs n t

def containsSub (needle hay : String) : Bool := subOccurs needle.data hay.data

/-! ### Python `pathlib` primitives

`Path.name` is the final path component; `Path.suffix` returns
`name[i:]` for the last dot index `i` when `0 < i < len(name) - 1`, and
`""` otherwise (so a bare `".pdf"` or a trailing-dot name has no
suffix); `Path.stem` is the name with the suffix removed.  -/

def pyName (p : String) : String := (pySplitOnChar '/' p).getLastD ""

/-- Python `str.rfind(c)`: index of the last occurrence, `-1` if absent. -/
def pyRFind (c : Char) (s : String) : Int :=
  match s.data.reverse.findIdx? (· = c) with
  | some j => ((s.data.length : Int) - 1 - (j : Int))
  | none => -1

def pySuffix (p : String) : String :=
  let name := pyName p
  let i := pyRFind '.' name
  if 0 < i ∧ i < (name.data.length : Int) - 1 then ⟨name.data.drop i.toNat⟩ else ""

def pyStem (p : String) : String :=
  let name := pyName p
  ⟨name.data.take (name.data.length - (pySuffix p).data.length)⟩

/-! ### `find_pdf_files` (source lines 114-133)

The input path is a file, a directory, or nonexistent.  A directory is
modelled as the list of relative paths of the files that
`glob("**/*.pdf")` can see, i.e. all files under the tree; the glob
keeps exactly those whose final component ends in `.pdf`
(case-sensitive, `*` may match the empty string).  For a single file
the code tests `input_path.suffix.lower() == '.pdf'` and never consults
the SI filter; during directory enumeration a file whose name contains
the substring `"SI"` is skipped unless `include_si` is set.  -/

inductive InputPath where
  | file (path : String)
  | dir (entries : List String)
  | missing
deriving DecidableEq

def globPdf (e : String) : Bool := pyEndsWith (pyName e) ".pdf"

def find_pdf_files (input : InputPath) (include_si : Bool) : List String :=
  match input with
  | .file p => if pyToLower (pySuffix p) = ".pdf" then [p] else []
  | .dir entries =>
    entries.filter (fun e => globPdf e && (include_si || !containsSub "SI" (pyName e)))
  | .missing => []

/-! ### The `re` collaborator

The Python `re` module is an external library; the extractor's use of
it is modelled by an abstract engine.  `search` returns the first match
(with `group(0)` and `group(1)`) of a pattern in a text under the given
flags, or `none`; `findall` returns the list of group-1 captures (every
pattern passed to it in this program has exactly one group, so the
source's tuple branch is unreachable); `escape` is `re.escape`.  -/

structure ReFlags where
  dotall : Bool
  ignorecase : Bool
deriving DecidableEq

/-- `re.DOTALL | re.IGNORECASE`. -/
def reDI : ReFlags := ⟨true, true⟩

/-- `re.IGNORECASE`. -/
def reI : ReFlags := ⟨false, true⟩

structure ReMatch where
  group0 : String
  group1 : String
deriving DecidableEq

structure RegexEngine where
  search : String → ReFlags → String → Option ReMatch
  findall : String → ReFlags → String → List String
  escape : String → String

/-- A degenerate engine (no pattern ever matches); used to instantiate
universally quantified statements at concrete inputs. -/
def trivEngine : RegexEngine :=
  { search := fun _ _ _ => none, findall := fun _ _ _ => [], escape := fun s => s }

/-! ### `extract_text_info` (source lines 135-247) -/

/-- The heading-anchored experimental-section patterns (source lines 157-161). -/
def expPatterns : List String :=
  [ "(?:Experimental|EXPERIMENTAL|Materials and Methods|METHODS)(.*?)(?=\\n\\n[A-Z]|$)",
    "(?:Synthesis|SYNTHESIS|Preparation|PREPARATION)(.*?)(?=\\n\\n[A-Z]|$)",
    "(?:General Procedures|GENERAL PROCEDURES)(.*?)(?=\\n\\n[A-Z]|$)" ]

/-- The fallback keyword pattern (source line 176). -/
def kwPattern : String :=
  "(synthesized|prepared|compound|reaction|procedure|method|synthesis)"

/-- The compound-identifier patterns (source lines 185-190). -/
def compoundPatterns : List String :=
  [ "compound\\s+(\\d+|[A-Z]\\d*)",
    "Compounds?\\s+(\\d+|[A-Z]\\d*)",
    "(\\d+|[A-Z]\\d*)\\s*\\([^)]+\\)",
    "([A-Z]+-\\d+)" ]

/-- The physical-property patterns (source lines 202-210). -/
def physPatterns : List String :=
  [ "m\\.p\\.:.*?(?=\\n\\n|\\n[A-Z])",
    "Tdec.*?(?=\\n\\n|\\n[A-Z])",
    "Tpeak.*?(?=\\n\\n|\\n[A-Z])",
    "IR.*?(?=\\n\\n|\\n[A-Z])",
    "1H NMR.*?(?=\\n\\n|\\n[A-Z])",
    "13C NMR.*?(?=\\n\\n|\\n[A-Z])",
    "HRMS.*?(?=\\n\\n|\\n[A-Z])" ]

/-- The pdfplumber collaborator's view of one PDF: per-page
`page.extract_text()` results (`none` models a `None` return). -/
structure PdfData where
  pages : List (Option String)
deriving DecidableEq

/-- Source lines 148-153: concatenate the first `k` pages' text, with a
trailing blank line after each truthy (non-`None`, non-empty) text. -/
def buildCorpus (pages : List (Option String)) (k : Nat) : String :=
  (pages.take k).foldl
    (fun acc ot =>
      match ot with
      | some t => if t = "" then acc else acc ++ t ++ "\n\n"
      | none => acc) ""

/-- Source lines 163-168: first heading pattern that matches wins; the
captured group is stripped. -/
def findExperimental (eng : RegexEngine) (text : String) : String :=
  match expPatterns.findSome? (fun p => eng.search p reDI text) with
  | some m => pyStrip m.group1
  | none => ""

/-- Source lines 171-181: line-by-line keyword fallback, first 50
matching lines (stripped), joined by newlines. -/
def fallbackExperimental (eng : RegexEngine) (text : String) : String :=
  let synthLines := (pySplitOnChar '\n' text).filterMap
    (fun line => if (eng.search kwPattern reI line).isSome then some (pyStrip line) else none)
  if synthLines = [] then "" else "\n".intercalate (synthLines.take 50)

/-- Python-set insertion modelled as first-occurrence deduplication; the
set's iteration order is irrelevant to the sorted `compounds` field
because the sort key determines the element. -/
def pySetInsert (s : List String) (x : String) : List String :=
  if s.contains x then s else s ++ [x]

/-- Source lines 184-198: union of all identifier-pattern matches,
keeping a match only if it is longer than one character or a digit
string. -/
def collectCompounds (eng : RegexEngine) (text : String) : List String :=
  ((compoundPatterns.flatMap (fun p => eng.findall p reI text)).filter
    (fun m => m.length > 1 || pyIsDigit m)).foldl pySetInsert []

/-- Source line 228: the key of `sorted(compounds, key=lambda x:
(str(x).isnumeric(), str(x)))` — Python tuple comparison with
`False < True`, so non-numeric identifiers order before numeric ones,
each group lexicographically by code point. -/
def compoundLE (a b : String) : Bool :=
  (!pyIsNumeric a && pyIsNumeric b) || (pyIsNumeric a == pyIsNumeric b && pyStrLe a b)

def insertCompound (a : String) : List String → List String
  | [] => [a]
  | b :: l => if compoundLE a b then a :: b :: l else b :: insertCompound a l

/-- Python `sorted` with the line-228 key.  `sorted` is a stable sort,
and the key is injective (its second component is the element itself),
so any sort that orders by `compoundLE` computes the same list;
insertion sort is used as the executable model. -/
def sortCompounds : List String → List String
  | [] => []
  | a :: l => insertCompound a (sortCompounds l)

/-- Source lines 201-214: all physical-property matches concatenated in
pattern order, truncated to the first 10. -/
def collectPhysProps (eng : RegexEngine) (text : String) : List String :=
  (physPatterns.flatMap (fun p => eng.findall p reDI text)).take 10

/-- Source lines 217-224: for up to 5 identifiers, the first context
window after the identifier, capped at 200 characters.  (`list(set)`
iteration order is arbitrary in Python; the model iterates the
first-occurrence order.) -/
def collectDescriptions (eng : RegexEngine) (compounds : List String) (text : String) :
    List (String × String) :=
  (compounds.take 5).filterMap (fun c =>
    let p := eng.escape c ++ ".*?(?=\\n\\n|\\n[A-Z]|\\.\\s)"
    (eng.search p reDI text).map (fun m => (c, pyTake m.group0 200)))

structure ExtractedTextInfo where
  experimental_text : String
  compounds : List String
  physical_props : List String
  compound_descriptions : List (String × String)
  total_pages : Int
  pages_processed : Int
  source_pdf : String
  error : Option String := none
deriving DecidableEq

/-- The default record returned from the `except` branch (source lines
236-247). -/
def defaultTextInfo (path msg : String) : ExtractedTextInfo :=
  { experimental_text := ""
    compounds := []
    physical_props := []
    compound_descriptions := []
    total_pages := 0
    pages_processed := 0
    source_pdf := path
    error := some msg }

/-- Source lines 135-247.  `pdf` is the pdfplumber collaborator: the
whole `with pdfplumber.open(...)` interaction either yields the
per-page texts or raises, and any exception inside the `try` block is
caught and turned into the default record.  `max_pages` is a plain
Python `int` (the CLI performs no sign check), hence `Int`.  -/
def extract_text_info (eng : RegexEngine) (pdf : Except String PdfData)
    (max_pages : Int) (pdf_path : String) : ExtractedTextInfo :=
  match pdf with
  | .error e => defaultTextInfo pdf_path e
  | .ok data =>
    let total : Int := (data.pages.length : Int)
    let pages_to_process : Int := min max_pages total
    let all_text := buildCorpus data.pages pages_to_process.toNat
    let headed := findExperimental eng all_text
    let experimental_text :=
      if headed = "" then fallbackExperimental eng all_text else headed
    let comps := collectCompounds eng all_text
    { experimental_text := experimental_text
      compounds := sortCompounds comps
      physical_props := collectPhysProps eng all_text
      compound_descriptions := collectDescriptions eng comps all_text
      total_pages := total
      pages_processed := pages_to_process
      source_pdf := pdf_path
      error := none }

/-! ### `extract_reactions_with_openchemie` (source lines 249-317)

The OpenChemIE model's raw output: per-figure records, each carrying an
optional page index (`fig_result.get('page', fig_idx)` falls back to
the figure's position) and a list of raw reaction entries; each entry
carries reactant and product candidate lists whose members may or may
not have a `smiles` key.  -/

structure Species where
  smiles : Option String
deriving DecidableEq

structure RawRxn where
  reactants : List Species
  products : List Species
deriving DecidableEq

structure FigResult where
  page : Option Nat
  reactions : List RawRxn
deriving DecidableEq

structure Reaction where
  reaction_id : Nat
  page : Nat
  reactant_smiles : String
  product_smiles : String
  raw_data : RawRxn
  reactant_image : Option String := none
  product_image : Option String := none
  images_generated : Bool := false
deriving DecidableEq

/-- Source lines 287-297: first candidate whose `smiles` key is present
and truthy (non-empty). -/
def selectFirstSmiles : List Species → Option String
  | [] => none
  | s :: rest =>
    match s.smiles with
    | some str => if str = "" then selectFirstSmiles rest else some str
    | none => selectFirstSmiles rest

def mkReaction (id page : Nat) (rs ps : String) (raw : RawRxn) : Reaction :=
  { reaction_id := id, page := page, reactant_smiles := rs, product_smiles := ps,
    raw_data := raw }

/-- Source lines 282-308: the body of the inner `for rxn_idx, rxn` loop,
appending to the running `reactions` list. -/
def innerStep (pg : Nat) (acc : List Reaction) (rxn : RawRxn) : List Reaction :=
  match selectFirstSmiles rxn.reactants, selectFirstSmiles rxn.products with
  | some rs, some ps => acc ++ [mkReaction (acc.length + 1) (pg + 1) rs ps rxn]
  | _, _ => acc

/-- Source lines 278-308: the body of the outer
`for fig_idx, fig_result in enumerate(figure_results)` loop. -/
def outerStep (acc : List Reaction) (p : Nat × FigResult) : List Reaction :=
  p.2.reactions.foldl (innerStep (p.2.page.getD p.1)) acc

/-- Source lines 277-311: normalization of the raw figure results. -/
def normalizeFigures (figs : List FigResult) : List Reaction :=
  figs.enum.foldl outerStep []

/-- Source lines 249-317: the whole extractor catches every exception
and returns `[]`; the collaborator (imports, model initialization, and
inference) is the only failure source in the model. -/
def extract_reactions_with_openchemie (figures : Except String (List FigResult)) :
    List Reaction :=
  match figures with
  | .error _ => []
  | .ok figs => normalizeFigures figs

/-- An entry is accepted exactly when both first-valid-candidate
selections succeed (the data-quality filter of the normalizer). -/
def acceptEntry (rxn : RawRxn) : Option (String × String) :=
  match selectFirstSmiles rxn.reactants, selectFirstSmiles rxn.products with
  | some rs, some ps => some (rs, ps)
  | _, _ => none

/-- The accepted entries of a figure list in acceptance order, each with
its figure's 0-based page index. -/
def acceptedEntries (figs : List FigResult) : List (Nat × String × String × RawRxn) :=
  figs.enum.flatMap (fun p =>
    p.2.reactions.filterMap (fun rxn =>
      (acceptEntry rxn).map (fun ab => (p.2.page.getD p.1, ab.1, ab.2, rxn))))

/-- Records for the accepted entries with ids `start+1, start+2, ...`
and 1-based pages. -/
def withIds (start : Nat) : List (Nat × String × String × RawRxn) → List Reaction
  | [] => []
  | e :: rest => mkReaction (start + 1) (e.1 + 1) e.2.1 e.2.2.1 e.2.2.2 :: withIds (start + 1) rest

/-- The normalizer's behaviour as the claim states it: accepted entries,
in order, numbered from 1, pages shifted to 1-based. -/
def specNormalize (figs : List FigResult) : List Reaction :=
  withIds 0 (acceptedEntries figs)

/-! ### `generate_reaction_images` (source lines 319-367)

The RDKit collaborator: `available` models whether `from rdkit ...`
succeeds (on failure the input list is returned unchanged); `parse`
models `Chem.MolFromSmiles` returning a molecule or `None`; `renderSave`
models `Draw.MolToImage(...)` followed by `img.save(path)`, whose
exceptions are caught by the per-record `try`.  Directory creation
(`images_dir.mkdir(exist_ok=True)`) is modelled as a non-failing
filesystem primitive.  -/

structure RdkitEnv where
  available : Bool
  parse : String → Bool
  renderSave : String → String → Except String Unit

def reactantImagePath (dir : String) (id : Nat) : String :=
  dir ++ "/reaction_images/reaction_" ++ toString id ++ "_reactant.png"

def productImagePath (dir : String) (id : Nat) : String :=
  dir ++ "/reaction_images/reaction_" ++ toString id ++ "_product.png"

/-- Source lines 334-365: the body of the per-reaction loop.  The image
fields are only written after both renders succeed; any parse failure
or render/save exception leaves the record with
`images_generated = false` (paths unset, exactly as in the source,
where the assignments at lines 354-356 are only reached on success). -/
def processReaction (env : RdkitEnv) (dir : String) (r : Reaction) : Reaction :=
  if env.parse r.reactant_smiles && env.parse r.product_smiles then
    match env.renderSave r.reactant_smiles (reactantImagePath dir r.reaction_id) with
    | .error _ => { r with images_generated := false }
    | .ok _ =>
      match env.renderSave r.product_smiles (productImagePath dir r.reaction_id) with
      | .error _ => { r with images_generated := false }
      | .ok _ =>
        { r with reactant_image := some (reactantImagePath dir r.reaction_id),
                 product_image := some (productImagePath dir r.reaction_id),
                 images_generated := true }
  else { r with images_generated := false }

/-- Source lines 319-367. -/
def generate_reaction_images (env : RdkitEnv) (reactions : List Reaction)
    (output_dir : String) : List Reaction :=
  if !env.available then reactions
  else reactions.map (processReaction env output_dir)

/-! ### `create_word_document` (source lines 369-516)

The python-docx collaborator: `available` models the `try: import docx`
(on `ImportError` the function returns `False` before touching any
file); `insertPicture` models `run.add_picture(path, ...)`, whose
exceptions are caught and logged per image; `fileExists` models
`Path(...).exists()`; `save` models `doc.save(path)` — if it raises,
the exception escapes to the caller.  The document content is
modelled as a flat list of items; run-level formatting (bold, font
size, colour, centering) carries no claim and is elided, so the bold
compound-led branch and the plain branch both produce a `para` with
the same text.  -/

inductive DocItem where
  | para (text : String)
  | picture (path : String)
deriving DecidableEq

structure DocxEnv where
  available : Bool
  insertPicture : String → Except String Unit
  fileExists : String → Bool
  save : Except String Unit

/-- Outcome of the assembler: the `bool` return of the source, plus the
saved document (`none` when nothing was written). -/
structure CreateResult where
  success : Bool
  saved : Option (List DocItem)
deriving DecidableEq

inductive Language where
  | zh
  | en
  | both
deriving DecidableEq

/-- Source line 413: the truncation marker appended past the
5000-character ceiling. -/
def truncMarker : String := "\n\n...（内容过长，已截断）"

/-- Source lines 410-413: `exp_text[:5000] + marker` when the text is
longer than 5000 characters, the text unmodified otherwise. -/
def truncateExpText (s : String) : String :=
  if s.length > 5000 then pyTake s 5000 ++ truncMarker else s

/-- Source lines 390-395: document title. -/
def docTitle (pdf_info : ExtractedTextInfo) : String :=
  if pdf_info.compounds ≠ [] then
    let t := "化合物" ++ ", ".intercalate (pdf_info.compounds.take 3) ++ "的合成路线"
    if pdf_info.compounds.length > 3 then t ++ "等" else t
  else pyStem pdf_info.source_pdf ++ " 合成路线"

/-- Source lines 406-434: the source-language (`原文`) section — the
truncated experimental text rendered line by line, whitespace-only
lines skipped, or the explicit not-extracted placeholder. -/
def sourceSectionItems (pdf_info : ExtractedTextInfo) : List DocItem :=
  DocItem.para "原文：" ::
    (if pdf_info.experimental_text ≠ "" then
      (pySplitOnChar '\n' (truncateExpText pdf_info.experimental_text)).filterMap
        (fun line => if pyStrip line ≠ "" then some (DocItem.para line) else none)
    else [DocItem.para "（实验部分未提取到）"])

/-- Source lines 467-489: one reaction's image paragraph.  Each
`add_picture` is wrapped in its own `try`; a failed insertion is
dropped (logged in the source) and the arrow text after the reactant
picture is only reached when that insertion succeeded. -/
def imageRowItems (env : DocxEnv) (r : Reaction) : List DocItem :=
  (match r.reactant_image with
    | some p =>
      if env.fileExists p then
        match env.insertPicture p with
        | .ok _ => [DocItem.picture p, DocItem.para "   →   "]
        | .error _ => []
      else []
    | none => []) ++
  (match r.product_image with
    | some p =>
      if env.fileExists p then
        match env.insertPicture p with
        | .ok _ => [DocItem.picture p]
        | .error _ => []
      else []
    | none => [])

/-- Source lines 455-495: one reaction's entry in the reaction section. -/
def reactionItems (env : DocxEnv) (r : Reaction) : List DocItem :=
  [ DocItem.para ("反应 " ++ toString r.reaction_id ++ " (第" ++ toString r.page ++ "页):"),
    DocItem.para ("反应物: " ++ pyTake r.reactant_smiles 50 ++ "... → 产物: "
      ++ pyTake r.product_smiles 50 ++ "...") ] ++
  (if r.images_generated then imageRowItems env r
   else [DocItem.para "（反应图像未生成）"]) ++
  [DocItem.para ""]

/-- Source lines 502-510: the provenance footer text. -/
def metaText (pdf_info : ExtractedTextInfo) (reactions : List Reaction) : String :=
  "文档生成信息: 来源PDF - " ++ pyName pdf_info.source_pdf ++
  ", 处理页数 - " ++ toString pdf_info.pages_processed ++ "/" ++
  toString pdf_info.total_pages ++ ", 提取反应数 - " ++ toString reactions.length

/-- Source lines 383-510: the full document contents in append order.
`template` is the content of the loaded template document when
`template_path and template_path.exists()` holds. -/
def docItems (env : DocxEnv) (pdf_info : ExtractedTextInfo) (reactions : List Reaction)
    (language : Language) (template : Option (List DocItem)) : List DocItem :=
  (template.getD []) ++
  [DocItem.para (docTitle pdf_info), DocItem.para ""] ++
  (if language = .en ∨ language = .both then sourceSectionItems pdf_info else []) ++
  (if pdf_info.physical_props ≠ [] then
    DocItem.para "" :: DocItem.para "物理性质数据：" ::
      pdf_info.physical_props.map DocItem.para
   else []) ++
  (if language = .zh ∨ language = .both then
    [DocItem.para "", DocItem.para "中文：", DocItem.para "（待翻译）"]
   else []) ++
  (if reactions ≠ [] then
    [DocItem.para "", DocItem.para "反应图：",
     DocItem.para "以下是通过OpenChemIE自动提取的化学反应结构图："] ++
      reactions.flatMap (reactionItems env)
   else []) ++
  [DocItem.para "", DocItem.para "谱图：", DocItem.para "（待补充）"] ++
  [DocItem.para "", DocItem.para (String.mk (List.replicate 50 '-')),
   DocItem.para (metaText pdf_info reactions)]

/-- Source lines 369-516.  Returns `.ok ⟨false, none⟩` (the source's
`return False`, nothing written) exactly on the `ImportError` branch;
otherwise the document is assembled in memory and `doc.save` either
writes it (`.ok ⟨true, some items⟩`, the source's `return True`) or
raises (`.error`). -/
def create_word_document (env : DocxEnv) (pdf_info : ExtractedTextInfo)
    (reactions : List Reaction) (output_path : String) (language : Language)
    (template : Option (List DocItem)) : Except String CreateResult :=
  if !env.available then .ok ⟨false, none⟩
  else
    let items := docItems env pdf_info reactions language template
    match env.save with
    | .error e => .error e
    | .ok _ => .ok ⟨true, some items⟩

/-! ### `process_pdf` (source lines 518-586) and `main` (lines 588-659)

Per-file processing: the collaborator oracles for one file are bundled
in `FileEnv`.  The whole stage sequence runs inside one `try`; the
model threads the partially built result through `Except`, whose
`error` carries the result as it stood when the exception was raised,
mirroring the in-place mutation of the Python dict.  Directory
creation (`mkdir(exist_ok=True)`, line 527) and the report/raw-data
file writes are modelled as non-failing filesystem primitives except
for `env.rawSave`, which models the optional raw-data dump inside the
`try` block.  -/

structure FileEnv where
  pdf : Except String PdfData
  regex : RegexEngine
  figures : Except String (List FigResult)
  rdkit : RdkitEnv
  docx : DocxEnv
  rawSave : Except String Unit
  docExists : Bool
  docSizeKb : Nat

structure Args where
  max_pages : Int
  no_images : Bool
  include_si : Bool
  language : Language
  template : Option (List DocItem)

structure Config where
  save_raw_data : Bool

structure ProcessResult where
  pdf_file : String
  output_dir : String
  success : Bool
  errors : List String
  text_info_summary : Option (Nat × Nat × Nat) := none
  reactions_extracted : Option Nat := none
  images_generated : Option Nat := none
  output_doc : Option String := none
  doc_size_kb : Option Nat := none
  raw_data_file : Option String := none
deriving DecidableEq

/-- Source lines 568-578: the optional raw-data dump (step 5), still
inside the `try`; a raised exception is handed to the caller together
with the result as built so far. -/
def saveRawStage (env : FileEnv) (cfg : Config) (rawPath : String)
    (r : ProcessResult) : Except (ProcessResult × String) ProcessResult :=
  if cfg.save_raw_data then
    match env.rawSave with
    | .error e => .error (r, e)
    | .ok _ => .ok { r with raw_data_file := some rawPath }
  else .ok r

/-- Source lines 554-578: steps 4 (document creation) and 5 (optional
raw-data dump) of the `try` block.  A `create_word_document` exception
(a raising `doc.save`) propagates with the result as built so far; a
`False` return appends the fixed error message; on `True` the result is
marked successful (with the saved document's size when the file
exists). -/
def docStage (env : FileEnv) (cfg : Config) (output_doc_path raw_data_path : String)
    (ti : ExtractedTextInfo) (reactions2 : List Reaction) (args : Args)
    (r3 : ProcessResult) : Except (ProcessResult × String) ProcessResult :=
  match create_word_document env.docx ti reactions2 output_doc_path args.language
      args.template with
  | .error e => .error (r3, e)
  | .ok cres =>
    if cres.success then
      saveRawStage env cfg raw_data_path
        { r3 with output_doc := some output_doc_path, success := true,
                  doc_size_kb := if env.docExists then some env.docSizeKb else none }
    else
      saveRawStage env cfg raw_data_path
        { r3 with errors := r3.errors ++ ["创建Word文档失败"] }

/-- Source lines 536-578: the `try` block of `process_pdf`.  A thrown
exception carries the result as it stood at the raise site.  (The
source's tuple of updated reaction list and result dict after the
optional image stage is written as two conditionals on the same
guard.) -/
def runStages (pdf_path : String) (env : FileEnv) (output_dir : String)
    (args : Args) (cfg : Config) : Except (ProcessResult × String) ProcessResult :=
  let pdf_output_dir := output_dir ++ "/" ++ pyStem pdf_path
  let r0 : ProcessResult :=
    { pdf_file := pdf_path, output_dir := pdf_output_dir, success := false, errors := [] }
  let ti := extract_text_info env.regex env.pdf args.max_pages pdf_path
  let tiSummary := (ti.compounds.length, ti.experimental_text.length, ti.physical_props.length)
  let r1 := { r0 with text_info_summary := some tiSummary }
  let reactions := extract_reactions_with_openchemie env.figures
  let r2 := { r1 with reactions_extracted := some reactions.length }
  let useImages := !reactions.isEmpty && !args.no_images
  let reactions2 :=
    if useImages then generate_reaction_images env.rdkit reactions pdf_output_dir
    else reactions
  let r3 :=
    if useImages then
      { r2 with images_generated := some (reactions2.countP (·.images_generated)) }
    else r2
  let output_doc_path := pdf_output_dir ++ "/" ++ pyStem pdf_path ++ "_合成路线.docx"
  let raw_data_path := pdf_output_dir ++ "/" ++ pyStem pdf_path ++ "_raw_data.json"
  docStage env cfg output_doc_path raw_data_path ti reactions2 args r3

/-- Source lines 518-586: the per-file orchestrator.  Every exception
raised inside the `try` is caught (lines 580-584), its message appended
to the result's error list, and the result returned — no exception
escapes to the batch loop. -/
def process_pdf (pdf_path : String) (env : FileEnv) (output_dir : String)
    (args : Args) (cfg : Config) : ProcessResult :=
  match runStages pdf_path env output_dir args cfg with
  | .ok r => r
  | .error (r, e) => { r with errors := r.errors ++ [e] }

/-- Source lines 588-659: the batch orchestrator.  Returns the
`results` array of the batch report and the process completion status:
an empty file list returns `1` before any per-file processing (lines
610-612); otherwise status `0` iff at least one file succeeded
(line 659). -/
def mainRun (input : InputPath) (include_si : Bool) (output_dir : String)
    (envOf : String → FileEnv) (args : Args) (cfg : Config) :
    List ProcessResult × Nat :=
  let pdf_files := find_pdf_files input include_si
  if pdf_files.isEmpty then ([], 1)
  else
    let results := pdf_files.map (fun f => process_pdf f (envOf f) output_dir args cfg)
    (results, if 0 < results.countP (·.success) then 0 else 1)

/-! ### Order lemmas for the compound sort -/

theorem charListLt_asymm : ∀ (as bs : List Char),
    charListLt as bs = true → charListLt bs as = false
  | [], [] => by simp [charListLt]
  | [], _ :: _ => by simp [charListLt]
  | _ :: _, [] => by simp [charListLt]
  | a :: as, b :: bs => by
    by_cases h1 : a.toNat < b.toNat <;> by_cases h2 : b.toNat < a.toNat <;>
      simp [charListLt, h1, h2] <;> first
        | omega
        | exact fun h => charListLt_asymm as bs h

theorem charListLt_cotrans : ∀ (cs as bs : List Char),
    charListLt cs as = true → charListLt cs bs = true ∨ charListLt bs as = true
  | [], [], _ => by simp [charListLt]
  | [], _ :: as, [] => fun _ => Or.inr (by simp [charListLt])
  | [], _ :: as, _ :: bs => fun _ => Or.inl (by simp [charListLt])
  | _ :: _, [], _ => by simp [charListLt]
  | _ :: _, _ :: _, [] => fun _ => Or.inr (by simp [charListLt])
  | c :: cs, a :: as, b :: bs => by
    intro h
    by_cases hcb : c.toNat < b.toNat
    · exact Or.inl (by simp [charListLt, hcb])
    by_cases hba : b.toNat < a.toNat
    · exact Or.inr (by simp [charListLt, hba])
    -- here b ≤ c and a ≤ b; together with h the heads must all be equal
    by_cases hca : c.toNat < a.toNat
    · omega
    · have hac : ¬ a.toNat < c.toNat := by
        intro hlt
        simp [charListLt, hca, hlt] at h
      have h' : charListLt cs as = true := by
        simpa [charListLt, hca, hac] using h
      rcases charListLt_cotrans cs as bs h' with hl | hr
      · exact Or.inl (by
          simpa [charListLt, hcb, show ¬ b.toNat < c.toNat by omega] using hl)
      · exact Or.inr (by
          simpa [charListLt, hba, show ¬ a.toNat < b.toNat by omega] using hr)

theorem pyStrLe_total (a b : String) : pyStrLe a b = true ∨ pyStrLe b a = true := by
  by_cases h : charListLt b.data a.data = true
  · exact Or.inr (by simp [pyStrLe, pyStrLt, charListLt_asymm _ _ h])
  · exact Or.inl (by simp [pyStrLe, pyStrLt]; simpa using h)

theorem pyStrLe_trans (a b c : String) :
    pyStrLe a b = true → pyStrLe b c = true → pyStrLe a c = true := by
  simp only [pyStrLe, pyStrLt, Bool.not_eq_true']
  intro hba hcb
  by_cases hca : charListLt c.data a.data = true
  · rcases charListLt_cotrans c.data a.data b.data hca with h | h
    · rw [h] at hcb; exact absurd hcb (by simp)
    · rw [h] at hba; exact absurd hba (by simp)
  · simpa using hca

theorem compoundLE_total (a b : String) : compoundLE a b = true ∨ compoundLE b a = true := by
  unfold compoundLE
  cases hna : pyIsNumeric a <;> cases hnb : pyIsNumeric b <;> simp <;>
    exact pyStrLe_total a b

theorem compoundLE_trans (a b c : String) :
    compoundLE a b = true → compoundLE b c = true → compoundLE a c = true := by
  unfold compoundLE
  cases hna : pyIsNumeric a <;> cases hnb : pyIsNumeric b <;> cases hnc : pyIsNumeric c <;>
    simp <;> exact pyStrLe_trans a b c

theorem mem_insertCompound {x a : String} : ∀ {l : List String},
    x ∈ insertCompound a l → x = a ∨ x ∈ l
  | [] => by simp [insertCompound]
  | b :: l => by
    by_cases h : compoundLE a b = true
    · simp only [insertCompound, if_pos h]
      exact fun hx => List.mem_cons.mp hx
    · simp only [insertCompound, if_neg h]
      intro hx
      rcases List.mem_cons.mp hx with hx | hx
      · exact Or.inr (List.mem_cons.mpr (Or.inl hx))
      · rcases mem_insertCompound hx with h' | h'
        · exact Or.inl h'
        · exact Or.inr (List.mem_cons.mpr (Or.inr h'))

theorem perm_insertCompound (a : String) : ∀ (l : List String),
    List.Perm (insertCompound a l) (a :: l)
  | [] => List.Perm.refl _
  | b :: l => by
    by_cases h : compoundLE a b = true
    · simp only [insertCompound, if_pos h]
      exact List.Perm.refl _
    · simp only [insertCompound, if_neg h]
      exact ((perm_insertCompound a l).cons b).trans (List.Perm.swap a b l)

theorem perm_sortCompounds : ∀ (l : List String), List.Perm (sortCompounds l) l
  | [] => List.Perm.refl _
  | a :: l =>
    (perm_insertCompound a (sortCompounds l)).trans ((perm_sortCompounds l).cons a)

theorem pairwise_insertCompound (a : String) : ∀ (l : List String),
    l.Pairwise (fun x y => compoundLE x y = true) →
    (insertCompound a l).Pairwise (fun x y => compoundLE x y = true)
  | [], _ => by simp [insertCompound]
  | b :: l, h => by
    rw [List.pairwise_cons] at h
    by_cases hab : compoundLE a b = true
    · simp only [insertCompound, if_pos hab]
      refine List.Pairwise.cons ?_ (List.Pairwise.cons h.1 h.2)
      intro y hy
      rcases List.mem_cons.mp hy with hy | hy
      · exact hy ▸ hab
      · exact compoundLE_trans a b y hab (h.1 y hy)
    · simp only [insertCompound, if_neg hab]
      refine List.Pairwise.cons ?_ (pairwise_insertCompound a l h.2)
      intro y hy
      rcases mem_insertCompound hy with hy | hy
      · subst hy
        rcases compoundLE_total y b with h' | h'
        · exact absurd h' hab
        · exact h'
      · exact h.1 y hy

theorem sorted_sortCompounds : ∀ (l : List String),
    (sortCompounds l).Pairwise (fun x y => compoundLE x y = true)
  | [] => List.Pairwise.nil
  | a :: l => pairwise_insertCompound a (sortCompounds l) (sorted_sortCompounds l)

/-! ### Structure lemmas for the reaction normalizer -/

theorem length_withIds (s : Nat) : ∀ (l : List (Nat × String × String × RawRxn)),
    (withIds s l).length = l.length
  | [] => rfl
  | e :: rest => by simp [withIds, length_withIds (s + 1) rest]

theorem withIds_append (s : Nat) :
    ∀ (l1 l2 : List (Nat × String × String × RawRxn)),
      withIds s (l1 ++ l2) = withIds s l1 ++ withIds (s + l1.length) l2
  | [], l2 => by simp [withIds]
  | e :: l1, l2 => by
    have ih := withIds_append (s + 1) l1 l2
    have hidx : s + 1 + l1.length = s + (l1.length + 1) := by omega
    rw [hidx] at ih
    show mkReaction (s + 1) (e.1 + 1) e.2.1 e.2.2.1 e.2.2.2 :: withIds (s + 1) (l1 ++ l2)
      = mkReaction (s + 1) (e.1 + 1) e.2.1 e.2.2.1 e.2.2.2 ::
          (withIds (s + 1) l1 ++ withIds (s + (l1.length + 1)) l2)
    exact congrArg _ ih

theorem withIds_map_id (s : Nat) : ∀ (l : List (Nat × String × String × RawRxn)),
    (withIds s l).map (fun r => r.reaction_id) = List.range' (s + 1) l.length
  | [] => rfl
  | e :: rest => by
    simp only [withIds, List.map_cons, List.length_cons, List.range']
    exact congrArg _ (withIds_map_id (s + 1) rest)

/-- The per-figure accepted entries tagged with the figure's page. -/
def figAccepted (p : Nat × FigResult) : List (Nat × String × String × RawRxn) :=
  p.2.reactions.filterMap (fun rxn =>
    (acceptEntry rxn).map (fun ab => (p.2.page.getD p.1, ab.1, ab.2, rxn)))

theorem foldl_innerStep (pg : Nat) : ∀ (rxns : List RawRxn) (acc : List Reaction),
    rxns.foldl (innerStep pg) acc
      = acc ++ withIds acc.length (rxns.filterMap (fun rxn =>
          (acceptEntry rxn).map (fun ab => (pg, ab.1, ab.2, rxn))))
  | [], acc => by simp [withIds]
  | rxn :: rxns, acc => by
    rcases h1 : selectFirstSmiles rxn.reactants with _ | rs <;>
      rcases h2 : selectFirstSmiles rxn.products with _ | ps
    case' none.none | none.some | some.none =>
      have ha : acceptEntry rxn = none := by simp [acceptEntry, h1, h2]
      have hi : innerStep pg acc rxn = acc := by simp [innerStep, h1, h2]
      simp only [List.foldl_cons, hi, List.filterMap_cons, ha, Option.map_none']
      exact foldl_innerStep pg rxns acc
    case some.some =>
      have ha : acceptEntry rxn = some (rs, ps) := by simp [acceptEntry, h1, h2]
      have hi : innerStep pg acc rxn
          = acc ++ [mkReaction (acc.length + 1) (pg + 1) rs ps rxn] := by
        simp [innerStep, h1, h2]
      simp only [List.foldl_cons, hi, List.filterMap_cons, ha, Option.map_some']
      rw [foldl_innerStep pg rxns (acc ++ [mkReaction (acc.length + 1) (pg + 1) rs ps rxn])]
      simp [withIds, List.length_append, List.append_assoc]

theorem foldl_outerStep : ∀ (pairs : List (Nat × FigResult)) (acc : List Reaction),
    pairs.foldl outerStep acc = acc ++ withIds acc.length (pairs.flatMap figAccepted)
  | [], acc => by simp [withIds]
  | p :: pairs, acc => by
    simp only [List.foldl_cons, List.flatMap_cons]
    rw [show outerStep acc p = acc ++ withIds acc.length (figAccepted p) from
        foldl_innerStep (p.2.page.getD p.1) p.2.reactions acc,
      foldl_outerStep pairs, withIds_append, List.append_assoc, List.length_append,
      length_withIds]

theorem normalizeFigures_eq_specNormalize (figs : List FigResult) :
    normalizeFigures figs = specNormalize figs := by
  have h := foldl_outerStep figs.enum []
  simpa [normalizeFigures, specNormalize, acceptedEntries, figAccepted] using h

/-- The concrete two-entry figure of the C1 example: entry 1 has a valid
reactant (second candidate) and a valid product; entry 2 has a valid
reactant but its product candidates are an empty-string SMILES and a
missing key, so it is dropped. -/
def c1EntryBoth : RawRxn :=
  { reactants := [⟨none⟩, ⟨some "C1=CC=CC=C1"⟩], products := [⟨some "C1CCCCC1"⟩] }

def c1EntryReactantOnly : RawRxn :=
  { reactants := [⟨some "CCO"⟩], products := [⟨some ""⟩, ⟨none⟩] }

def c1ExampleFigs : List FigResult :=
  [{ page := some 3, reactions := [c1EntryBoth, c1EntryReactantOnly] }]

/-! ### Claim theorems -/

/-- C1: The Reaction Normalizer turns a raw figure list into exactly
the records of the entries that have both a first reactant candidate
and a first product candidate with a non-empty structure identifier
(`specNormalize` keeps precisely the `acceptEntry`-accepted entries in
order and drops the rest — there is no error channel, so dropped
entries produce no error); accepted records get `reaction_id` 1, 2, 3,
… in acceptance order, and each record's `page` is the model's 0-based
page index plus one.  On the concrete one-figure example whose entry 1
has both identifiers and entry 2 only a reactant identifier, exactly
one record results, with `reaction_id = 1` and `page = 3 + 1`. -/
theorem c1_reaction_normalizer :
    (∀ figs : List FigResult,
      normalizeFigures figs = specNormalize figs
      ∧ (normalizeFigures figs).map (fun r => r.reaction_id)
          = List.range' 1 (acceptedEntries figs).length)
    ∧ extract_reactions_with_openchemie (Except.ok c1ExampleFigs)
        = [mkReaction 1 4 "C1=CC=CC=C1" "C1CCCCC1" c1EntryBoth] := by
  constructor
  · intro figs
    refine ⟨normalizeFigures_eq_specNormalize figs, ?_⟩
    rw [normalizeFigures_eq_specNormalize figs, specNormalize, withIds_map_id]
  · decide

/-- C2 counterexample: on the identifier set {"12","A1","3"} the
extractor's sort (source line 228, key `(x.isnumeric(), x)`, with
`False < True`) produces ["A1","12","3"], not the claimed
["3","12","A1"]: non-numeric identifiers come first, and within the
numeric group "12" precedes "3" lexicographically. -/
theorem c2_counterexample :
    sortCompounds ["12", "A1", "3"] = ["A1", "12", "3"]
    ∧ sortCompounds ["12", "A1", "3"] ≠ ["3", "12", "A1"] := by decide

/-- C2 (amended): the Text-Mining Extractor returns the compound
identifier set sorted with alphabetic (not purely numeric) identifiers
before purely numeric ones, lexicographically by code point within
each group: the `compounds` field is `sortCompounds` of the collected
set, `sortCompounds` is a permutation of its input ordered by
`compoundLE`, and {"12","A1","3"} yields ["A1","12","3"]. -/
theorem c2_compound_ordering :
    (∀ (eng : RegexEngine) (data : PdfData) (mp : Int) (path : String),
      (extract_text_info eng (Except.ok data) mp path).compounds
        = sortCompounds (collectCompounds eng
            (buildCorpus data.pages (min mp (data.pages.length : Int)).toNat)))
    ∧ (∀ l : List String, List.Perm (sortCompounds l) l)
    ∧ (∀ l : List String,
        (sortCompounds l).Pairwise (fun x y => compoundLE x y = true))
    ∧ sortCompounds ["12", "A1", "3"] = ["A1", "12", "3"] :=
  ⟨fun _ _ _ _ => rfl, perm_sortCompounds, sorted_sortCompounds, by decide⟩

/-- C4: the Text-Mining Extractor never raises — it is total over its
collaborator oracle, and a collaborator exception yields exactly the
default record with the message recorded; conversely whenever `error`
is set, every extraction field is empty/default (and the collaborator
did fail with that very message). -/
theorem c4_text_mining_error_policy :
    ∀ (eng : RegexEngine) (pdf : Except String PdfData) (mp : Int) (path : String),
      (∀ e, pdf = Except.error e →
        extract_text_info eng pdf mp path = defaultTextInfo path e)
      ∧ (∀ e, (extract_text_info eng pdf mp path).error = some e →
          (extract_text_info eng pdf mp path).experimental_text = ""
          ∧ (extract_text_info eng pdf mp path).compounds = []
          ∧ (extract_text_info eng pdf mp path).physical_props = []
          ∧ (extract_text_info eng pdf mp path).compound_descriptions = []
          ∧ (extract_text_info eng pdf mp path).total_pages = 0
          ∧ (extract_text_info eng pdf mp path).pages_processed = 0
          ∧ pdf = Except.error e) := by
  intro eng pdf mp path
  cases pdf with
  | error e =>
    refine ⟨fun e' he => by injection he with h; subst h; rfl, fun e' he => ?_⟩
    have h : e = e' := by
      have : (extract_text_info eng (Except.error e) mp path).error = some e := rfl
      rw [this] at he
      injection he
    subst h
    exact ⟨rfl, rfl, rfl, rfl, rfl, rfl, rfl⟩
  | ok data =>
    refine ⟨fun e' he => Except.noConfusion he, fun e' he => ?_⟩
    have h : (extract_text_info eng (Except.ok data) mp path).error = none := rfl
    rw [h] at he
    exact Option.noConfusion he

/-- C4 witness: a concrete failing collaborator yields the default
record. -/
theorem c4_witness :
    extract_text_info trivEngine (Except.error "io failure") 5 "x.pdf"
      = defaultTextInfo "x.pdf" "io failure" :=
  (c4_text_mining_error_policy trivEngine (Except.error "io failure") 5 "x.pdf").1
    "io failure" rfl

/-- C9 counterexample: `--max-pages` is an unchecked Python `int`; with
a budget of −1 and a failing PDF open, the default record has
`pages_processed = 0`, which is not ≤ the configured budget — the
claim's unconditional `pages_processed ≤ budget` fails. -/
theorem c9_counterexample :
    ¬ ((extract_text_info trivEngine (Except.error "boom") (-1) "x.pdf").pages_processed
        ≤ (-1 : Int)) := by decide

/-- C9 (amended): every `ExtractedTextInfo` (including the failure
default) satisfies `pages_processed ≤ total_pages`, and
`pages_processed ≤ max_pages` holds whenever the configured budget is
non-negative (a negative budget with a failing open is the only
violation: both counters are then 0). -/
theorem c9_pages_invariant :
    ∀ (eng : RegexEngine) (pdf : Except String PdfData) (mp : Int) (path : String),
      (extract_text_info eng pdf mp path).pages_processed
          ≤ (extract_text_info eng pdf mp path).total_pages
      ∧ (0 ≤ mp → (extract_text_info eng pdf mp path).pages_processed ≤ mp) := by
  intro eng pdf mp path
  cases pdf with
  | error e => exact ⟨le_refl 0, fun h => h⟩
  | ok data => exact ⟨min_le_right _ _, fun _ => min_le_left _ _⟩

/-- C9 witness: the amended bound at a concrete non-negative budget. -/
theorem c9_witness :
    ((0 : Int) ≤ 5)
    ∧ (extract_text_info trivEngine (Except.error "boom") 5 "x.pdf").pages_processed
        ≤ (5 : Int) :=
  ⟨by decide, (c9_pages_invariant trivEngine (Except.error "boom") 5 "x.pdf").2 (by decide)⟩

/-- C7: the Document Assembler's source-language section truncates the
experimental text exactly past the 5000-character ceiling: texts of at
most 5000 characters pass through `truncateExpText` (the function
`sourceSectionItems` renders) unmodified, and a longer text becomes
exactly its first 5000 characters followed by the truncation marker —
character-exactly (`data` equation) and hence with length
`5000 + truncMarker.length`. -/
theorem c7_truncation :
    ∀ s : String,
      (s.length ≤ 5000 → truncateExpText s = s)
      ∧ (5000 < s.length →
          truncateExpText s = pyTake s 5000 ++ truncMarker
          ∧ (truncateExpText s).data = s.data.take 5000 ++ truncMarker.data
          ∧ (truncateExpText s).length = 5000 + truncMarker.length) := by
  intro s
  constructor
  · intro h
    simp [truncateExpText, Nat.not_lt.mpr h]
  · intro h
    have ht : truncateExpText s = pyTake s 5000 ++ truncMarker := by
      simp [truncateExpText, h]
    have hd : (truncateExpText s).data = s.data.take 5000 ++ truncMarker.data := by
      rw [ht]
      simp [pyTake, String.data_append]
    refine ⟨ht, hd, ?_⟩
    have hlen : 5000 < s.data.length := h
    show (truncateExpText s).data.length = 5000 + truncMarker.data.length
    rw [hd]
    simp only [List.length_append, List.length_take]
    omega

/-- C7 witness: a 6000-character text renders as exactly its first
5000 characters plus the marker. -/
def c7BigText : String := String.mk (List.replicate 6000 'a')

theorem c7_witness :
    5000 < c7BigText.length
    ∧ truncateExpText c7BigText = pyTake c7BigText 5000 ++ truncMarker := by
  have h : 5000 < c7BigText.length := by
    show 5000 < (List.replicate 6000 'a').length
    rw [List.length_replicate]
    omega
  exact ⟨h, ((c7_truncation c7BigText).2 h).1⟩

/-- C10 counterexample: a single-file input named exactly ".pdf" ends
in ".pdf" case-insensitively, but pathlib's suffix rule requires the
last dot to sit at an index strictly greater than 0, so its suffix is
empty and `find_pdf_files` rejects it — the claim's "every single-file
input whose name ends in .pdf (case-insensitive) is included" is too
broad by this one degenerate case. -/
theorem c10_counterexample :
    pyEndsWith (pyToLower ".pdf") ".pdf" = true
    ∧ find_pdf_files (InputPath.file "papers/.pdf") false = [] := by decide

/-- C10 (amended): the supplementary-information exclusion applies
only to directory inputs.  A single-file input ignores the include-SI
option entirely and is included exactly when its pathlib suffix
lowercases to ".pdf" (its name ends in ".pdf" with the final dot not
the first character of the name) — even when the name contains "SI";
directory enumeration keeps exactly the entries matching the
"**/*.pdf" glob whose final name component lacks the "SI" substring,
unless the option is on. -/
theorem c10_si_exclusion_scope :
    ∀ (p : String) (si : Bool) (entries : List String) (e : String),
      find_pdf_files (InputPath.file p) si = find_pdf_files (InputPath.file p) (!si)
      ∧ (pyToLower (pySuffix p) = ".pdf" → find_pdf_files (InputPath.file p) si = [p])
      ∧ (e ∈ find_pdf_files (InputPath.dir entries) si ↔
          e ∈ entries ∧ globPdf e = true
            ∧ (si = true ∨ containsSub "SI" (pyName e) = false)) := by
  intro p si entries e
  refine ⟨rfl, fun h => by simp [find_pdf_files, h], ?_⟩
  simp only [find_pdf_files, List.mem_filter, Bool.and_eq_true, Bool.or_eq_true,
    Bool.not_eq_true']

/-- C10 witness: a single-file input whose name contains "SI" is
included with the include-SI option off. -/
theorem c10_witness :
    pyToLower (pySuffix "dir/Stuff-SI.PDF") = ".pdf"
    ∧ find_pdf_files (InputPath.file "dir/Stuff-SI.PDF") false = ["dir/Stuff-SI.PDF"] := by
  have h : pyToLower (pySuffix "dir/Stuff-SI.PDF") = ".pdf" := by decide
  exact ⟨h, (c10_si_exclusion_scope "dir/Stuff-SI.PDF" false [] "").2.1 h⟩

/-- The rendering collaborator of the C5 example: every SMILES parses
except "BAD", and rendering always succeeds. -/
def c5Env : RdkitEnv :=
  { available := true, parse := fun s => s != "BAD", renderSave := fun _ _ => Except.ok () }

/-- Three records, the middle one with an unparsable reactant SMILES. -/
def c5Records : List Reaction :=
  [ mkReaction 1 1 "CCO" "CCN" { reactants := [], products := [] },
    mkReaction 2 1 "BAD" "CCN" { reactants := [], products := [] },
    mkReaction 3 2 "CC" "CO" { reactants := [], products := [] } ]

/-- C5: the Image Stage processes every record independently: the
output always has the input's length; with the collaborator
unavailable the input is returned unchanged; when available the stage
is a per-record map (so a failure on one record cannot affect, let
alone abort, any later record); a record either of whose structure
identifiers fails to parse comes back unchanged except for
`images_generated = false`; and `images_generated = true` is only set
after both parses and both render/saves succeeded, with both image
paths recorded.  On the concrete 3-record input whose middle record is
unparsable, 3 records return with the flags [true, false, true] —
exactly 2 of them true. -/
theorem c5_image_stage :
    ∀ (env : RdkitEnv) (rs : List Reaction) (dir : String) (r : Reaction),
      (generate_reaction_images env rs dir).length = rs.length
      ∧ (env.available = false → generate_reaction_images env rs dir = rs)
      ∧ (env.available = true →
          generate_reaction_images env rs dir = rs.map (processReaction env dir))
      ∧ ((env.parse r.reactant_smiles = false ∨ env.parse r.product_smiles = false) →
          processReaction env dir r = { r with images_generated := false })
      ∧ ((processReaction env dir r).images_generated = true →
          env.parse r.reactant_smiles = true ∧ env.parse r.product_smiles = true
          ∧ env.renderSave r.reactant_smiles (reactantImagePath dir r.reaction_id)
              = Except.ok ()
          ∧ env.renderSave r.product_smiles (productImagePath dir r.reaction_id)
              = Except.ok ()
          ∧ (processReaction env dir r).reactant_image
              = some (reactantImagePath dir r.reaction_id)
          ∧ (processReaction env dir r).product_image
              = some (productImagePath dir r.reaction_id))
      ∧ ((generate_reaction_images c5Env c5Records "out").map (fun x => x.images_generated)
            = [true, false, true]
          ∧ (generate_reaction_images c5Env c5Records "out").countP
              (fun x => x.images_generated) = 2) := by
  intro env rs dir r
  refine ⟨?_, ?_, ?_, ?_, ?_, by decide⟩
  · by_cases h : env.available <;> simp [generate_reaction_images, h]
  · intro h
    simp [generate_reaction_images, h]
  · intro h
    simp [generate_reaction_images, h]
  · intro h
    rcases h with h | h <;> simp [processReaction, h]
  · intro h
    simp only [processReaction] at h ⊢
    by_cases h1 : env.parse r.reactant_smiles && env.parse r.product_smiles
    · rw [if_pos h1] at h ⊢
      rcases hr1 : env.renderSave r.reactant_smiles (reactantImagePath dir r.reaction_id)
        with e | u
      · simp [hr1] at h
      · rcases hr2 : env.renderSave r.product_smiles (productImagePath dir r.reaction_id)
          with e | u'
        · simp [hr1, hr2] at h
        · rw [Bool.and_eq_true] at h1
          cases u
          cases u'
          simp_all
    · rw [if_neg h1] at h
      simp at h

/-- C5 witness: the middle record of the example is returned unchanged
except for `images_generated = false`. -/
theorem c5_witness :
    (c5Env.parse "BAD" = false ∨ c5Env.parse "CCN" = false)
    ∧ processReaction c5Env "out" (mkReaction 2 1 "BAD" "CCN" { reactants := [], products := [] })
        = { mkReaction 2 1 "BAD" "CCN" { reactants := [], products := [] } with
            images_generated := false } := by
  have h : c5Env.parse "BAD" = false ∨ c5Env.parse "CCN" = false := Or.inl (by decide)
  exact ⟨h, (c5_image_stage c5Env [] "out"
    (mkReaction 2 1 "BAD" "CCN" { reactants := [], products := [] })).2.2.2.1 h⟩

/-- An unavailable python-docx collaborator, for the C8 witness. -/
def c8UnavailableEnv : DocxEnv :=
  { available := false, insertPicture := fun _ => Except.ok (),
    fileExists := fun _ => false, save := Except.ok () }

/-- C8: the Document Assembler returns failure (rather than raising)
exactly when the python-docx collaborator is unavailable, and in that
case nothing is written (no partial output file); otherwise, whenever
saving succeeds it returns success with the assembled document saved —
for every per-image insertion oracle, i.e. individual `add_picture`
failures (caught and logged per image) never fail the document. -/
theorem c8_assembler_failure_policy :
    ∀ (env : DocxEnv) (info : ExtractedTextInfo) (reactions : List Reaction)
      (out : String) (lang : Language) (tmpl : Option (List DocItem)),
      (env.available = false →
        create_word_document env info reactions out lang tmpl
          = Except.ok { success := false, saved := none })
      ∧ (env.available = true → env.save = Except.ok () →
          create_word_document env info reactions out lang tmpl
            = Except.ok { success := true,
                          saved := some (docItems env info reactions lang tmpl) })
      ∧ (∀ res, create_word_document env info reactions out lang tmpl = Except.ok res →
          (res.success = false ↔ env.available = false)) := by
  intro env info reactions out lang tmpl
  refine ⟨fun h => by simp [create_word_document, h],
    fun h hs => by simp [create_word_document, h, hs], ?_⟩
  intro res hres
  by_cases h : env.available
  · rw [create_word_document] at hres
    rw [if_neg (by simp [h])] at hres
    rcases hs : env.save with e | u
    · rw [hs] at hres
      exact Except.noConfusion hres
    · cases u
      rw [hs] at hres
      injection hres with h'
      subst h'
      simp [h]
  · rw [create_word_document] at hres
    rw [if_pos (by simp [h])] at hres
    injection hres with h'
    subst h'
    simp [h]

/-- C8 witness: with the collaborator unavailable the assembler
returns failure and nothing saved. -/
theorem c8_witness :
    create_word_document c8UnavailableEnv (defaultTextInfo "x.pdf" "e") []
        "out.docx" Language.both none
      = Except.ok { success := false, saved := none } :=
  (c8_assembler_failure_policy c8UnavailableEnv (defaultTextInfo "x.pdf" "e") []
    "out.docx" Language.both none).1 rfl

/-! ### Orchestrator lemmas and concrete batch environments -/

theorem saveRawStage_ok (env : FileEnv) (cfg : Config) (path : String)
    (r r' : ProcessResult) :
    saveRawStage env cfg path r = Except.ok r' →
    r'.success = r.success ∧ r'.errors = r.errors := by
  unfold saveRawStage
  by_cases h : cfg.save_raw_data
  · rw [if_pos h]
    rcases hs : env.rawSave with e | u
    · exact fun hk => Except.noConfusion hk
    · intro hk
      injection hk with hk
      subst hk
      exact ⟨rfl, rfl⟩
  · rw [if_neg h]
    intro hk
    injection hk with hk
    subst hk
    exact ⟨rfl, rfl⟩

theorem docStage_ok_failed (env : FileEnv) (cfg : Config)
    (outDoc rawP : String) (ti : ExtractedTextInfo) (rx2 : List Reaction)
    (args : Args) (r3 r : ProcessResult) :
    docStage env cfg outDoc rawP ti rx2 args r3 = Except.ok r →
    r.success = false → r.errors ≠ [] := by
  intro hok hsucc
  unfold docStage at hok
  split at hok
  · exact Except.noConfusion hok
  · split at hok
    · have h2 := saveRawStage_ok _ _ _ _ _ hok
      rw [h2.1] at hsucc
      simp at hsucc
    · have h2 := saveRawStage_ok _ _ _ _ _ hok
      rw [h2.2]
      simp

/-- `runStages` is the `docStage` tail applied to the values built by
the earlier stages (the let-chain reduces definitionally). -/
theorem runStages_eq_docStage (p : String) (env : FileEnv) (out : String)
    (args : Args) (cfg : Config) :
    ∃ outDoc rawP ti rx2 r3,
      runStages p env out args cfg = docStage env cfg outDoc rawP ti rx2 args r3 :=
  ⟨_, _, _, _, _, rfl⟩

theorem runStages_ok_failed (p : String) (env : FileEnv) (out : String)
    (args : Args) (cfg : Config) (r : ProcessResult) :
    runStages p env out args cfg = Except.ok r → r.success = false → r.errors ≠ [] := by
  intro hok hsucc
  obtain ⟨outDoc, rawP, ti, rx2, r3, heq⟩ := runStages_eq_docStage p env out args cfg
  rw [heq] at hok
  exact docStage_ok_failed env cfg outDoc rawP ti rx2 args r3 r hok hsucc

theorem process_pdf_failed_has_errors (p : String) (env : FileEnv) (out : String)
    (args : Args) (cfg : Config) :
    (process_pdf p env out args cfg).success = false →
    (process_pdf p env out args cfg).errors ≠ [] := by
  unfold process_pdf
  rcases hok : runStages p env out args cfg with ⟨r, e⟩ | r
  · intro _
    simp
  · exact runStages_ok_failed p env out args cfg r hok

theorem status_iff (results : List ProcessResult) :
    ((if 0 < results.countP (fun r => r.success) then (0 : Nat) else 1) = 0)
      ↔ ∃ r ∈ results, r.success = true := by
  by_cases hc : 0 < results.countP (fun r => r.success)
  · rw [if_pos hc]
    constructor
    · intro _
      simpa using List.countP_pos_iff.mp hc
    · intro _
      rfl
  · rw [if_neg hc]
    constructor
    · intro h
      exact absurd h one_ne_zero
    · intro hex
      exact absurd (List.countP_pos_iff.mpr (by simpa using hex)) hc

/-- A fully healthy per-file environment (one readable page, no
figures, python-docx available and saving successfully). -/
def c3GoodEnv : FileEnv :=
  { pdf := Except.ok { pages := [some "text"] }, regex := trivEngine,
    figures := Except.ok [],
    rdkit := { available := false, parse := fun _ => false,
               renderSave := fun _ _ => Except.ok () },
    docx := { available := true, insertPicture := fun _ => Except.ok (),
              fileExists := fun _ => true, save := Except.ok () },
    rawSave := Except.ok (), docExists := true, docSizeKb := 12 }

/-- The same environment except that `doc.save` raises. -/
def c3BadEnv : FileEnv :=
  { c3GoodEnv with
    docx := { available := true, insertPicture := fun _ => Except.ok (),
              fileExists := fun _ => true, save := Except.error "disk full" } }

def c3EnvOf : String → FileEnv := fun f => if f = "bad.pdf" then c3BadEnv else c3GoodEnv

def c3Args : Args :=
  { max_pages := 5, no_images := false, include_si := false,
    language := Language.both, template := none }

def c3Cfg : Config := { save_raw_data := false }

/-- C3: the per-file orchestrator is total over its stage oracles (the
model of "no exception raised while processing one file escapes to the
batch level"), so the batch produces exactly one ProcessResult per
discovered input; a result with `success = false` always carries a
non-empty error list; and in the concrete two-file batch whose first
file's document save raises while the second file succeeds, two
results are produced with success flags [false, true] and the batch
completes with status 0. -/
theorem c3_per_file_isolation :
    ∀ (input : InputPath) (si : Bool) (out : String) (envOf : String → FileEnv)
      (args : Args) (cfg : Config) (p : String) (env : FileEnv),
      (mainRun input si out envOf args cfg).1.length = (find_pdf_files input si).length
      ∧ ((process_pdf p env out args cfg).success = false →
          (process_pdf p env out args cfg).errors ≠ [])
      ∧ ((mainRun (InputPath.dir ["bad.pdf", "good.pdf"]) false "out" c3EnvOf c3Args
            c3Cfg).1.map (fun r => r.success) = [false, true]
          ∧ (mainRun (InputPath.dir ["bad.pdf", "good.pdf"]) false "out" c3EnvOf c3Args
              c3Cfg).2 = 0) := by
  intro input si out envOf args cfg p env
  refine ⟨?_, process_pdf_failed_has_errors p env out args cfg, by decide⟩
  unfold mainRun
  rcases h : find_pdf_files input si with _ | ⟨f, fs⟩
  · simp
  · simp

/-- C3 witness: the failing file of the two-file scenario has
`success = false` and a non-empty error list. -/
theorem c3_witness :
    (process_pdf "bad.pdf" c3BadEnv "out" c3Args c3Cfg).success = false
    ∧ (process_pdf "bad.pdf" c3BadEnv "out" c3Args c3Cfg).errors ≠ [] := by
  have h : (process_pdf "bad.pdf" c3BadEnv "out" c3Args c3Cfg).success = false := by decide
  exact ⟨h, (c3_per_file_isolation (InputPath.dir []) false "out" c3EnvOf c3Args c3Cfg
    "bad.pdf" c3BadEnv).2.1 h⟩

/-- C6: the batch completion status is 0 exactly when at least one
file's ProcessResult has `success = true`; when zero input files are
discovered the run returns status 1 with no per-file results (and
hence status 1 whenever no file succeeded). -/
theorem c6_completion_status :
    ∀ (input : InputPath) (si : Bool) (out : String) (envOf : String → FileEnv)
      (args : Args) (cfg : Config),
      (find_pdf_files input si = [] → mainRun input si out envOf args cfg = ([], 1))
      ∧ ((mainRun input si out envOf args cfg).2 = 0 ↔
          ∃ r ∈ (mainRun input si out envOf args cfg).1, r.success = true) := by
  intro input si out envOf args cfg
  constructor
  · intro h
    simp [mainRun, h]
  · unfold mainRun
    rcases h : find_pdf_files input si with _ | ⟨f, fs⟩
    · simp
    · simp only [List.isEmpty_cons, Bool.false_eq_true, if_false]
      exact status_iff _

/-- C6 witness: an empty input directory yields status 1 and no
results. -/
theorem c6_witness :
    mainRun (InputPath.dir []) false "out" (fun _ => c3GoodEnv) c3Args c3Cfg = ([], 1) :=
  (c6_completion_status (InputPath.dir []) false "out" (fun _ => c3GoodEnv)
    c3Args c3Cfg).1 rfl

end ChemRouteExtractor
